import Mathlib

/-!
Shallow embedding of the time-sched scheduler (src/Task.js and src/index.js)
and proofs about its documented behaviour.

Modelling conventions:
- JavaScript numbers are modelled as rationals (ℚ); every numeric value
  appearing in the claims is exactly representable.
- A JavaScript object field that may be absent is an `Option ℚ`; the idiom
  `x || 0` becomes `jsOr0`.
- A user-supplied callback function is abstracted by the one bit of behaviour
  the scheduler can observe: whether invoking it throws (`Task.cbThrows`).
- A thrown exception that escapes a function is an `Except.error`; functions
  that catch exceptions internally return ordinary values.
- The registry `this.list` is a list of (name, task) pairs in insertion
  order, matching JavaScript object key iteration order for string keys.
-/

namespace TimeSched

/-- The two task variants of src/Task.js: type `"after"` (one-shot) and
type `"repeat"` (recurring). `rpt` stands for the source string `"repeat"`. -/
inductive TaskType
  | after
  | rpt
deriving DecidableEq, Repr

/-- One task object as built by the `Task` constructor in src/Task.js.
`onAt` models the source field `on` (deadline of an `after` task); fields that
a variant does not set in the constructor are `none` (JS `undefined`).
`destroy` models whether the write-once `destroy` property has been defined
(absent = `false`). `cbThrows` abstracts the user callback: `true` means
invoking it throws. -/
structure Task where
  type : TaskType
  name : String
  active : Bool
  cbThrows : Bool
  onAt : Option ℚ
  iterations : Option ℚ
  iteration : Option ℚ
  interval : Option ℚ
  lastUpdate : Option ℚ
  destroy : Bool
deriving DecidableEq, Repr

/-- The JavaScript defaulting idiom `x || 0` on a possibly-absent numeric
field: an absent field gives 0, a present value v gives v (also when v = 0,
since `0 || 0` is `0`). -/
def jsOr0 : Option ℚ → ℚ
  | some v => v
  | none => 0

/-- `Task.prototype.enable` (src/Task.js line 62): sets `active` to true and
returns the task. -/
def Task.enable (t : Task) : Task :=
  { t with active := true }

/-- `Task.prototype.disable` (src/Task.js line 71): sets `active` to false and
returns the task. -/
def Task.disable (t : Task) : Task :=
  { t with active := false }

/-- `Task.prototype.markForDestroy` (src/Task.js line 120): defines the
`destroy` property with value true. -/
def Task.markForDestroy (t : Task) : Task :=
  { t with destroy := true }

/-- `Task.prototype.shouldExecute(now)` (src/Task.js lines 81-91):
`active && ((type === "after" && now > on) || (type === "repeat" && now - lastUpdate >= interval))`,
with absent `on`, `interval`, `lastUpdate` defaulted through `|| 0`. -/
def Task.shouldExecute (t : Task) (now : ℚ) : Bool :=
  let onv := jsOr0 t.onAt
  let intervalv := jsOr0 t.interval
  let lastUpdatev := jsOr0 t.lastUpdate
  let diff := decide (now - lastUpdatev ≥ intervalv)
  let afterOK := decide (t.type = TaskType.after) && decide (now > onv)
  let repeatOK := decide (t.type = TaskType.rpt) && diff
  t.active && (afterOK || repeatOK)

/-- `Task.prototype.onCallbackTick(now)` (src/Task.js lines 97-114).
`dateNow` stands for the value `Date.now()` would return, used by the source
expression `now || Date.now()` when `now` is 0. The counter update
`this.iteration = iteration` happens for both variants. -/
def Task.onCallbackTick (t : Task) (now dateNow : ℚ) : Task :=
  let iterationsv := jsOr0 t.iterations
  let iterationv := jsOr0 t.iteration + 1
  let t1 := { t with iteration := some iterationv }
  if t1.type = TaskType.after ∨
      (t1.type = TaskType.rpt ∧ iterationsv ≠ 0 ∧ iterationv ≥ iterationsv) then
    t1.markForDestroy
  else
    { t1 with lastUpdate := some (if now = 0 then dateNow else now) }

/-- One invocation of the closure built by `Task.spawnCallback` (src/Task.js
lines 131-141): run `onCallbackTick(now)`, then invoke the user callback; if
the user callback throws, the exception is caught, the task is marked for
destruction, and the failure is logged. The returned Bool records whether the
user callback completed without throwing. -/
def Task.callbackStep (t : Task) (now dateNow : ℚ) : Task × Bool :=
  let t1 := t.onCallbackTick now dateNow
  if t.cbThrows then (t1.markForDestroy, false) else (t1, true)

/-- A JavaScript value as far as the scheduler's argument checks observe it. -/
inductive JVal
  | undef
  | str (s : String)
  | num (q : ℚ)
  | fnVal (throws : Bool)
deriving DecidableEq, Repr

/-- `zletools.isNumber`: the value is a number. -/
def JVal.isNum : JVal → Bool
  | .num _ => true
  | _ => false

/-- `zletools.isString(v, true)`: the value is a non-empty string. -/
def JVal.isStringTrue : JVal → Bool
  | .str s => !s.isEmpty
  | _ => false

/-- The string a JavaScript value coerces to when used as an object key.
Only string keys arise from the scheduler's own inserts (canAdd requires a
non-empty string name before a task is registered); the other cases follow
JavaScript's standard coercions for lookup purposes. -/
def jsKey : JVal → String
  | .str s => s
  | .num q => toString q
  | .undef => "undefined"
  | .fnVal _ => "function"

/-- The parameter object passed to `add` / `new Task`; absent fields are
`JVal.undef`. -/
structure Params where
  name : JVal
  after : JVal
  interval : JVal
  callback : JVal
  iterations : JVal
deriving DecidableEq, Repr

/-- The `Task` constructor (src/Task.js lines 27-56). The variant is chosen
by `isNumber(params.after)`; the params are then validated against that
variant's schema (name: String, after/interval: Number, callback: Function,
iterations optional Number) and a failure throws. On success the variant's
fields are initialised: `after` tasks get `on = Date.now() + after`; `repeat`
tasks get `iterations = tree.iterations || 0`, `iteration = 0`,
`interval`, `lastUpdate = 0`. -/
def Task.construct (p : Params) (dateNow : ℚ) : Except Unit Task :=
  if p.after.isNum then
    match p.name, p.after, p.callback with
    | .str n, .num a, .fnVal thr =>
        .ok { type := .after, name := n, active := true, cbThrows := thr,
              onAt := some (dateNow + a), iterations := none, iteration := none,
              interval := none, lastUpdate := none, destroy := false }
    | _, _, _ => .error ()
  else
    match p.name, p.interval, p.callback with
    | .str n, .num i, .fnVal thr =>
        match p.iterations with
        | .undef =>
            .ok { type := .rpt, name := n, active := true, cbThrows := thr,
                  onAt := none, iterations := some 0, iteration := some 0,
                  interval := some i, lastUpdate := some 0, destroy := false }
        | .num its =>
            .ok { type := .rpt, name := n, active := true, cbThrows := thr,
                  onAt := none, iterations := some its, iteration := some 0,
                  interval := some i, lastUpdate := some 0, destroy := false }
        | _ => .error ()
    | _, _, _ => .error ()

/-- Module-level `max` of src/index.js line 14: 24 hours in milliseconds. -/
def maxWait : ℚ := 86400000

/-- Module-level `min` of src/index.js line 13. -/
def minWait : ℚ := 0

/-- The scheduler instance state of src/index.js: the task registry `list`
(insertion-ordered), the module-level `running` flag, `lastTick`, the current
heartbeat `wait` (the closure variable of `_spawnWait`), and the
construction-time floor `min`. -/
structure SchedState where
  list : List (String × Task)
  running : Bool
  lastTick : ℚ
  wait : ℚ
  min : ℚ
deriving DecidableEq, Repr

/-- Registry lookup `this.list[name]`. -/
def lookupTask : List (String × Task) → String → Option Task
  | [], _ => none
  | (n, t) :: rest, name => if n = name then some t else lookupTask rest name

/-- In-place update of the entry for `name` (JS property assignment on an
existing key keeps its position). -/
def updateTask : List (String × Task) → String → Task → List (String × Task)
  | [], _, _ => []
  | (n, t) :: rest, name, nt =>
      if n = name then (n, nt) :: rest else (n, t) :: updateTask rest name nt

/-- `Scheduler.prototype.has(name)` (src/index.js line 105) without the
throwing mode: `!!this.list[name]`. -/
def SchedState.has (s : SchedState) (name : String) : Bool :=
  (lookupTask s.list name).isSome

/-- `Scheduler.prototype.canAdd(name)` (src/index.js lines 118-126): false
(after logging) when a task with that name exists or the name is not a
non-empty string; true otherwise. -/
def SchedState.canAdd (s : SchedState) (name : JVal) : Bool :=
  if s.has (jsKey name) then false
  else if !name.isStringTrue then false
  else true

/-- The value `add` returns: JavaScript `true`, `false`, or `undefined`
(`add` has no return statement on the canAdd-failed path). -/
inductive JSRet
  | tru
  | fls
  | undef
deriving DecidableEq, Repr

/-- `Scheduler.prototype.add(params)` (src/index.js lines 132-141): inside a
try/catch, if `canAdd(params.name)` then register `new Task(params)` and
return true; a throw from the Task constructor is caught and returns
`logError(err)`, i.e. false; when `canAdd` fails the function falls through
and returns `undefined`. -/
def SchedState.add (s : SchedState) (p : Params) (dateNow : ℚ) : SchedState × JSRet :=
  if s.canAdd p.name then
    match Task.construct p dateNow with
    | .ok t => ({ s with list := s.list ++ [(jsKey p.name, t)] }, JSRet.tru)
    | .error _ => (s, JSRet.fls)
  else (s, JSRet.undef)

/-- `Scheduler.prototype.changeTaskWait(name, val)` (src/index.js lines
260-273): look the task up; if present, assign `task.interval = val` (plain
JavaScript assignment, which creates the property when the variant lacks it)
and return `task.interval === val`; if absent return false. In the rational
model the post-assignment comparison is exact (there is no NaN). -/
def SchedState.changeTaskWait (s : SchedState) (name : String) (val : ℚ) :
    SchedState × Bool :=
  match lookupTask s.list name with
  | some t =>
      let t1 := { t with interval := some val }
      ({ s with list := updateTask s.list name t1 }, decide (t1.interval = some val))
  | none => (s, false)

/-- The regex gate of the `wait` setter (src/index.js lines 7-9, 377):
the string `"\x7bto:" ++ String.ofNumber val ++ "\x7d"` matches
`^\x7bto:([0-9]\x7b1,10\x7d)\x7d$` exactly when the JavaScript decimal
rendering of `val` is a bare digit string of at most 10 digits, i.e. when
`val` is an integer with `0 ≤ val < 10^10`; the captured group then parses
back to `val` itself. -/
def regexWaitMatch (val : ℚ) : Option ℚ :=
  if val.den = 1 ∧ 0 ≤ val ∧ val < 10 ^ 10 then some val else none

/-- The `set` accessor built by `Scheduler.prototype._spawnWait`
(src/index.js lines 376-390): match the candidate against the `\x7bto:N\x7d`
pattern; on a match, accept the number when `min ≤ N ≤ max` (min is the
construction-time heartbeat), otherwise throw `_throwOutOfRange`. -/
def SchedState.waitSet (s : SchedState) (val : ℚ) : Except Unit SchedState :=
  match regexWaitMatch val with
  | some n =>
      if s.min ≤ n ∧ n ≤ maxWait then .ok { s with wait := n }
      else .error ()
  | none => .error ()

/-- `Scheduler.prototype._getValidWait(val)` (src/index.js lines 279-292):
throws when `val` is not a number or equals the current wait; otherwise
returns the string `"\x7bto:" ++ val ++ "\x7d"`, represented here by the
number `val` it encodes. -/
def SchedState.getValidWait (s : SchedState) (val : JVal) : Except Unit ℚ :=
  match val with
  | .num q => if q = s.wait then .error () else .ok q
  | _ => .error ()

/-- `Scheduler.prototype.changeWait(val)` (src/index.js lines 242-253):
inside a try/catch, compute `_getValidWait(val)` and assign it through the
`wait` setter; any throw is caught and converted to a false return.
(The `return false` branch on a falsy `value` is dead: `_getValidWait`
either throws or returns a non-empty string.) -/
def SchedState.changeWait (s : SchedState) (val : JVal) : SchedState × Bool :=
  match s.getValidWait val with
  | .ok q =>
      match s.waitSet q with
      | .ok s1 => (s1, true)
      | .error _ => (s, false)
  | .error _ => (s, false)

/-- Construction parameters of the `Scheduler` constructor: a bare number or
an options object. -/
inductive CProps
  | num (q : ℚ)
  | obj (heartbeat : Option ℚ) (keepAlive : Bool)
deriving DecidableEq, Repr

/-- The `Scheduler` constructor (src/index.js lines 58-85). A numeric
argument becomes `\x7bheartbeat: props\x7d`; `heartbeat` defaults to the
module-level `min` (0). When `heartbeat < min`, the constructor logs the
defaulting message and then executes `heartbeat = min` — an assignment to a
`const` destructured binding, which throws a TypeError out of the
constructor, so no instance is created. Otherwise the instance fields are
defined: `min` (the floor) and the initial `wait` are both the heartbeat,
`list` is empty, `lastTick` is 0, and `running` reflects the module-level
flag, initially false. -/
def SchedState.construct (props : CProps) : Except Unit SchedState :=
  let heartbeat := match props with
    | CProps.num q => q
    | CProps.obj h _ => h.getD minWait
  if heartbeat < minWait then .error ()
  else .ok { list := [], running := false, lastTick := 0,
             wait := heartbeat, min := heartbeat }

/-- One task's step inside `_tick` (src/index.js lines 299-312): invoke the
wrapped callback when `shouldExecute(now)`; the `Option Bool` event is `none`
when the callback was not invoked and `some b` when it was, `b` recording
whether the user callback completed without throwing. -/
def tickTask (now dateNow : ℚ) (t : Task) : Task × Option Bool :=
  if t.shouldExecute now then
    let r := t.callbackStep now dateNow
    (r.1, some r.2)
  else (t, none)

/-- The `Object.keys(list).forEach` body of `_tick` over the registry
snapshot: each entry is evaluated in order, and after its evaluation it is
removed when its `destroy` property is true. The modelled callbacks do not
mutate the registry, so the `this.has(name)` re-check and the
`task === list[name]` identity re-check of the source always pass. Returns
the surviving registry and the list of callback-invocation events. -/
def tickList (now dateNow : ℚ) :
    List (String × Task) → List (String × Task) × List (String × Bool)
  | [] => ([], [])
  | (n, t) :: rest =>
      let r := tickTask now dateNow t
      let tail := tickList now dateNow rest
      let evs := match r.2 with
        | some b => (n, b) :: tail.2
        | none => tail.2
      if r.1.destroy then (tail.1, evs) else ((n, r.1) :: tail.1, evs)

/-- `Scheduler.prototype._tick(now)` (src/index.js lines 294-319): a no-op
when `running` is false; otherwise one pass of `tickList` over the registry. -/
def SchedState.tick (s : SchedState) (now dateNow : ℚ) :
    SchedState × List (String × Bool) :=
  if s.running then
    let r := tickList now dateNow s.list
    ({ s with list := r.1 }, r.2)
  else (s, [])

/-- One pulse of `Scheduler.prototype._loop` (src/index.js lines 325-336):
`delta = now - lastTick`; if `delta > wait` run `_tick(now)` and set
`lastTick = now`, else do nothing. The final Bool records whether `_tick`
was called on this pulse. -/
def SchedState.pulse (s : SchedState) (now dateNow : ℚ) :
    SchedState × List (String × Bool) × Bool :=
  if now - s.lastTick > s.wait then
    let r := s.tick now dateNow
    ({ r.1 with lastTick := now }, r.2, true)
  else (s, [], false)

/-- A sequence of loop pulses at the given timestamps; returns the final
state and the timestamps at which a tick occurred. -/
def pulseSeq (s : SchedState) : List ℚ → SchedState × List ℚ
  | [] => (s, [])
  | t :: rest =>
      let r := s.pulse t t
      let tail := pulseSeq r.1 rest
      (tail.1, if r.2.2 then t :: tail.2 else tail.2)

/-- A sequence of tick passes at the given timestamps; returns the final
state and all callback-invocation events in order. -/
def tickSeq (s : SchedState) : List ℚ → SchedState × List (String × Bool)
  | [] => (s, [])
  | t :: rest =>
      let r := s.tick t t
      let tail := tickSeq r.1 rest
      (tail.1, r.2 ++ tail.2)
/-- A one-shot task as the `Task` constructor builds it from
`\x7bname: "X", after: 10, callback\x7d` at `Date.now() = 0`. -/
def afterTaskX : Task :=
  { type := .after, name := "X", active := true, cbThrows := false,
    onAt := some 10, iterations := none, iteration := none, interval := none,
    lastUpdate := none, destroy := false }

/-- A recurring task with `interval = 100` and `iterations = 3`, as freshly
constructed. -/
def repTaskA3 : Task :=
  { type := .rpt, name := "A", active := true, cbThrows := false,
    onAt := none, iterations := some 3, iteration := some 0, interval := some 100,
    lastUpdate := some 0, destroy := false }

/-- A recurring task (interval 10, no iteration limit) whose user callback
throws. -/
def throwTaskA : Task :=
  { type := .rpt, name := "A", active := true, cbThrows := true,
    onAt := none, iterations := some 0, iteration := some 0, interval := some 10,
    lastUpdate := some 0, destroy := false }

/-- A recurring task (interval 10, no iteration limit) whose user callback
returns normally. -/
def okTaskB : Task :=
  { type := .rpt, name := "B", active := true, cbThrows := false,
    onAt := none, iterations := some 0, iteration := some 0, interval := some 10,
    lastUpdate := some 0, destroy := false }

/-- A scheduler as constructed with heartbeat 0 (floor 0), registry empty. -/
def emptySched : SchedState :=
  { list := [], running := false, lastTick := 0, wait := 0, min := 0 }

/-- A scheduler constructed with heartbeat 250 and started; `lastTick` still
at its initial value 0. -/
def gateSched : SchedState :=
  { list := [], running := true, lastTick := 0, wait := 250, min := 250 }

/-- A started scheduler (heartbeat floor 0) holding the iteration-limited
recurring task. -/
def iterSched : SchedState :=
  { list := [("A", repTaskA3)], running := true, lastTick := 0, wait := 0, min := 0 }

/-- A scheduler holding the one-shot task `afterTaskX` under its name. -/
def afterSched : SchedState :=
  { list := [("X", afterTaskX)], running := false, lastTick := 0, wait := 0, min := 0 }

/-- A started scheduler holding the throwing task "A" and the healthy task
"B", in that insertion order. -/
def abSched : SchedState :=
  { list := [("A", throwTaskA), ("B", okTaskB)], running := true,
    lastTick := 0, wait := 0, min := 0 }

/-- A scheduler as constructed with heartbeat 500 (floor 500). -/
def sched500 : SchedState :=
  { list := [], running := false, lastTick := 0, wait := 500, min := 500 }

/-- The params object `\x7bname: "X", after: 10, callback\x7d`. -/
def paramsX : Params :=
  { name := .str "X", after := .num 10, interval := .undef,
    callback := .fnVal false, iterations := .undef }

/-- The task `Task.construct paramsX 0` builds. -/
def taskX0 : Task :=
  { type := .after, name := "X", active := true, cbThrows := false,
    onAt := some 10, iterations := none, iteration := none, interval := none,
    lastUpdate := none, destroy := false }

/-- Claim C9: `enable()` sets `active` to true and `disable()` sets it to
false; both are idempotent, return the task itself, and modify no other
field, so disabling after a firing and re-enabling later leaves
`lastUpdate`, `interval`, `iteration` and `iterations` untouched and the
next firing is still gated from the original `lastUpdate`. -/
theorem C9_enable_disable (t : Task) (now : ℚ) :
    t.enable = { t with active := true }
    ∧ t.disable = { t with active := false }
    ∧ t.enable.enable = t.enable
    ∧ t.disable.disable = t.disable
    ∧ t.disable.enable = { t with active := true }
    ∧ t.disable.enable.lastUpdate = t.lastUpdate
    ∧ t.disable.enable.interval = t.interval
    ∧ t.disable.enable.iteration = t.iteration
    ∧ t.disable.enable.iterations = t.iterations
    ∧ t.disable.enable.shouldExecute now = t.enable.shouldExecute now :=
  ⟨rfl, rfl, rfl, rfl, rfl, rfl, rfl, rfl, rfl, rfl⟩

/-- Claim C10: constructing a scheduler with a heartbeat below the
module-level minimum 0 (a bare number or an options object) throws out of
the constructor — the clamp branch assigns to a `const` destructured
binding — so no instance is created. -/
theorem C10_constructor_throws (hb : ℚ) (ka : Bool) (h : hb < 0) :
    SchedState.construct (CProps.num hb) = Except.error ()
    ∧ SchedState.construct (CProps.obj (some hb) ka) = Except.error () := by
  constructor <;> simp [SchedState.construct, minWait, h]

/-- Witness for C10 at heartbeat -5. -/
theorem C10_constructor_throws_witness :
    (-5 : ℚ) < 0 ∧ SchedState.construct (CProps.num (-5)) = Except.error () :=
  ⟨by norm_num, (C10_constructor_throws (-5) false (by norm_num)).1⟩

/-- Claim C2: a loop pulse at time `now` with `now - lastTick ≤ wait` does
nothing at all (no tick, no state change); with `now - lastTick > wait` it
runs `_tick(now)` and then sets `lastTick = now`; with heartbeat 250 and
`lastTick` initially 0, pulses at t = 0, 100, 200, 300 produce exactly one
tick, at t = 300. -/
theorem C2_heartbeat_gating (s : SchedState) (now dateNow : ℚ) :
    (now - s.lastTick ≤ s.wait → s.pulse now dateNow = (s, [], false))
    ∧ (now - s.lastTick > s.wait →
        s.pulse now dateNow =
          ({ (s.tick now dateNow).1 with lastTick := now },
            (s.tick now dateNow).2, true))
    ∧ (pulseSeq gateSched [0, 100, 200, 300]).2 = [300] := by
  refine ⟨fun h => ?_, fun h => ?_,
    by norm_num +decide [pulseSeq, SchedState.pulse, SchedState.tick, tickList, gateSched]⟩
  · simp [SchedState.pulse, not_lt.mpr h]
  · simp [SchedState.pulse, h]

/-- Witness for C2: the skipped pulse at t = 100 and the ticking pulse at
t = 300 on the heartbeat-250 scheduler. -/
theorem C2_heartbeat_gating_witness :
    ((100 : ℚ) - gateSched.lastTick ≤ gateSched.wait
      ∧ gateSched.pulse 100 100 = (gateSched, [], false))
    ∧ ((300 : ℚ) - gateSched.lastTick > gateSched.wait
      ∧ gateSched.pulse 300 300 =
          ({ (gateSched.tick 300 300).1 with lastTick := 300 },
            (gateSched.tick 300 300).2, true)) :=
  ⟨⟨by norm_num [gateSched], (C2_heartbeat_gating gateSched 100 100).1 (by norm_num [gateSched])⟩,
    ⟨by norm_num [gateSched], (C2_heartbeat_gating gateSched 300 300).2.1 (by norm_num [gateSched])⟩⟩

/-- Claim C7 counterexample: after constructing with heartbeat 500 and a
successful `changeWait(1000)`, the subsequent `changeWait(500)` returns
true — it does not fail as the claim states, because 500 still satisfies
`floor ≤ 500 ≤ max` and differs from the current value 1000. -/
theorem C7_counterexample :
    SchedState.construct (CProps.num 500) = Except.ok sched500
    ∧ ((sched500.changeWait (JVal.num 1000)).1.changeWait (JVal.num 500)).2 = true :=
  ⟨rfl, rfl⟩

/-- Claim C7 as amended: with construction heartbeat 500, `changeWait(100)`
fails (below the floor), `changeWait(1000)` succeeds, and the subsequent
`changeWait(500)` also succeeds (500 lies in [floor, max] and differs from
the current value 1000), lowering the heartbeat back to 500. -/
theorem C7_heartbeat_floor_scenario :
    SchedState.construct (CProps.num 500) = Except.ok sched500
    ∧ sched500.changeWait (JVal.num 100) = (sched500, false)
    ∧ (sched500.changeWait (JVal.num 1000)).2 = true
    ∧ (sched500.changeWait (JVal.num 1000)).1.wait = 1000
    ∧ ((sched500.changeWait (JVal.num 1000)).1.changeWait (JVal.num 500)).2 = true
    ∧ ((sched500.changeWait (JVal.num 1000)).1.changeWait (JVal.num 500)).1.wait = 500 :=
  ⟨rfl, rfl, rfl, rfl, rfl, rfl⟩

/-- Claim C1: `shouldExecute(now)` is a pure query (in this embedding a
function `Task → ℚ → Bool` that writes no field) returning true iff the
task is active and, for a one-shot task, `now > on` (strict), or, for a
recurring task, `now - lastUpdate ≥ interval` (non-strict); in particular a
one-shot task with `now = on` is not due, and a never-fired recurring task
(`lastUpdate` at the 0 sentinel) is due exactly when `now ≥ interval`. -/
theorem C1_shouldExecute_query (t : Task) (now : ℚ) :
    (t.shouldExecute now = true ↔
      t.active = true ∧
        ((t.type = TaskType.after ∧ now > jsOr0 t.onAt) ∨
          (t.type = TaskType.rpt ∧ now - jsOr0 t.lastUpdate ≥ jsOr0 t.interval)))
    ∧ (t.type = TaskType.after → now = jsOr0 t.onAt → t.shouldExecute now = false)
    ∧ (t.type = TaskType.rpt → t.lastUpdate = some 0 → t.active = true →
        (t.shouldExecute now = true ↔ now ≥ jsOr0 t.interval)) := by
  refine ⟨?_, fun hty heq => ?_, fun hty hlu hact => ?_⟩
  · cases hA : t.active <;> simp [Task.shouldExecute, hA]
  · subst heq
    simp [Task.shouldExecute, hty]
  · simp [Task.shouldExecute, hty, hlu, hact, jsOr0]

/-- Witness for C1: the one-shot task at `now = on` is not due, and the
never-fired recurring task is due iff `now` has reached its interval. -/
theorem C1_shouldExecute_query_witness :
    afterTaskX.shouldExecute 10 = false
    ∧ (repTaskA3.shouldExecute 100 = true ↔ (100 : ℚ) ≥ jsOr0 repTaskA3.interval) :=
  ⟨(C1_shouldExecute_query afterTaskX 10).2.1 rfl rfl,
    (C1_shouldExecute_query repTaskA3 100).2.2 rfl rfl rfl⟩

/-- Claim C5 counterexample: adding the same valid params twice returns
true and then `undefined` — not the boolean false the claim states — because
`add` has no return statement on the `canAdd`-failed path. -/
theorem C5_counterexample :
    (emptySched.add paramsX 0).2 = JSRet.tru
    ∧ ((emptySched.add paramsX 0).1.add paramsX 0).2 = JSRet.undef
    ∧ JSRet.undef ≠ JSRet.fls :=
  ⟨rfl, rfl, by simp⟩

/-- Claim C5 as amended: `add(params)` throws nothing and leaves the
registry unchanged on every failure, but the failure value differs by
cause: it returns `undefined` (a falsy non-boolean) when a task with that
name already exists or the name is not a non-empty string, and boolean
false only when Task construction throws (schema failure); on success it
registers the new Task and returns true. In particular a duplicate `add`
returns true then `undefined`, and the registry keeps the first task. -/
theorem C5_add_characterization (s : SchedState) (p : Params) (dateNow : ℚ) :
    (s.has (jsKey p.name) = true → s.add p dateNow = (s, JSRet.undef))
    ∧ (p.name.isStringTrue = false → s.add p dateNow = (s, JSRet.undef))
    ∧ (s.canAdd p.name = true → Task.construct p dateNow = Except.error () →
        s.add p dateNow = (s, JSRet.fls))
    ∧ (∀ t : Task, s.canAdd p.name = true → Task.construct p dateNow = Except.ok t →
        s.add p dateNow = ({ s with list := s.list ++ [(jsKey p.name, t)] }, JSRet.tru)) := by
  refine ⟨fun h => ?_, fun h => ?_, fun hc herr => ?_, fun t hc hok => ?_⟩
  · simp [SchedState.add, SchedState.canAdd, h]
  · simp [SchedState.add, SchedState.canAdd, h]
  · simp [SchedState.add, hc, herr]
  · simp [SchedState.add, hc, hok]

/-- Witness for C5: a successful first add of params "X" on the empty
scheduler, and a duplicate second add returning `undefined`. -/
theorem C5_add_characterization_witness :
    emptySched.add paramsX 0 =
      ({ emptySched with list := emptySched.list ++ [(jsKey paramsX.name, taskX0)] },
        JSRet.tru)
    ∧ (emptySched.add paramsX 0).1.add paramsX 0 = ((emptySched.add paramsX 0).1, JSRet.undef) :=
  ⟨(C5_add_characterization emptySched paramsX 0).2.2.2 taskX0 rfl
      (by norm_num +decide [Task.construct, paramsX, taskX0]),
    ((C5_add_characterization (emptySched.add paramsX 0).1 paramsX 0).1 rfl)⟩

/-- Claim C8 counterexample: `changeTaskWait` on a registered one-shot task
returns true, not false, and the task is not left unchanged — the plain
JavaScript assignment creates an `interval` property on it. -/
theorem C8_counterexample :
    afterTaskX.type = TaskType.after
    ∧ afterTaskX.interval = none
    ∧ (afterSched.changeTaskWait "X" 7).2 = true
    ∧ lookupTask (afterSched.changeTaskWait "X" 7).1.list "X" =
        some { afterTaskX with interval := some 7 } :=
  ⟨rfl, rfl, rfl, rfl⟩

/-- Claim C8 as amended: `changeTaskWait(name, v)` returns false exactly
when no task with that name exists; for an existing task of either variant
it assigns `interval = v` in place — leaving `lastUpdate` and every other
field unchanged, so a recurring task's elapsed-time bookkeeping is kept and
the new interval takes effect on the next evaluation — and returns true
(the post-assignment `task.interval === val` check holds for every rational
v), so a one-shot task is not silently ignored: it gains an `interval`
field (which its due-time logic never reads) and the call reports true. -/
theorem C8_changeTaskWait_characterization (s : SchedState) (name : String) (v : ℚ) :
    (lookupTask s.list name = none → s.changeTaskWait name v = (s, false))
    ∧ (∀ t : Task, lookupTask s.list name = some t →
        s.changeTaskWait name v =
          ({ s with list := updateTask s.list name { t with interval := some v } }, true)
        ∧ ({ t with interval := some v }).lastUpdate = t.lastUpdate
        ∧ ({ t with interval := some v }).type = t.type
        ∧ ({ t with interval := some v }).active = t.active) := by
  refine ⟨fun h => ?_, fun t h => ?_⟩
  · simp [SchedState.changeTaskWait, h]
  · simp [SchedState.changeTaskWait, h]

/-- Witness for C8: applying the characterization to the scheduler holding
the one-shot task "X". -/
theorem C8_changeTaskWait_characterization_witness :
    afterSched.changeTaskWait "X" 7 =
      ({ afterSched with
          list := updateTask afterSched.list "X" { afterTaskX with interval := some 7 } },
        true) :=
  ((C8_changeTaskWait_characterization afterSched "X" 7).2 afterTaskX rfl).1

/-- Claim C3 counterexample: the counter update is not "Recurring only" —
invoking `onCallbackTick` on a one-shot task writes its `iteration` field
too (absent, treated as 0, becomes 1). -/
theorem C3_counterexample :
    afterTaskX.type = TaskType.after
    ∧ afterTaskX.iteration = none
    ∧ (afterTaskX.onCallbackTick 5 99).iteration = some 1 :=
  ⟨rfl, rfl, by norm_num [afterTaskX, Task.onCallbackTick, Task.markForDestroy, jsOr0]⟩

/-- Claim C3 as amended: every invocation of the wrapped callback at a
nonzero time `now` first sets `iteration` to its old `|| 0` value plus one
(for both variants, not only Recurring); then, if the task is one-shot, or
recurring with a nonzero `iterations` limit reached by the new count, it
sets `destroy` and leaves `lastUpdate` unchanged, and otherwise sets
`lastUpdate = now`; then it invokes the user callback. Consequently a
recurring task with interval 100 and iterations 3 fires exactly 3 times,
is removed from the registry on the 3rd firing's tick pass, and a 4th due
tick invokes no callback. -/
theorem C3_firing_protocol (t : Task) (now dateNow : ℚ) (hnz : now ≠ 0) :
    (t.onCallbackTick now dateNow).iteration = some (jsOr0 t.iteration + 1)
    ∧ (t.type = TaskType.after ∨
          (t.type = TaskType.rpt ∧ jsOr0 t.iterations ≠ 0 ∧
            jsOr0 t.iteration + 1 ≥ jsOr0 t.iterations) →
        (t.onCallbackTick now dateNow).destroy = true
        ∧ (t.onCallbackTick now dateNow).lastUpdate = t.lastUpdate)
    ∧ (¬(t.type = TaskType.after ∨
          (t.type = TaskType.rpt ∧ jsOr0 t.iterations ≠ 0 ∧
            jsOr0 t.iteration + 1 ≥ jsOr0 t.iterations)) →
        (t.onCallbackTick now dateNow).destroy = t.destroy
        ∧ (t.onCallbackTick now dateNow).lastUpdate = some now)
    ∧ (t.callbackStep now dateNow =
        (if t.cbThrows then ((t.onCallbackTick now dateNow).markForDestroy, false)
          else (t.onCallbackTick now dateNow, true)))
    ∧ (tickSeq iterSched [100, 200, 300, 400]).2 = [("A", true), ("A", true), ("A", true)]
    ∧ (tickSeq iterSched [100, 200, 300]).1.list = [] := by
  refine ⟨?_, fun h => ?_, fun h => ?_, rfl, ?_, ?_⟩
  · simp only [Task.onCallbackTick, Task.markForDestroy]
    split <;> rfl
  · simp only [Task.onCallbackTick, Task.markForDestroy]
    split
    · exact ⟨rfl, rfl⟩
    · rename_i hc
      exact absurd h (by simpa using hc)
  · simp only [Task.onCallbackTick, Task.markForDestroy]
    split
    · rename_i hc
      exact absurd (by simpa using hc) h
    · exact ⟨rfl, by simp [hnz]⟩
  · norm_num +decide [tickSeq, SchedState.tick, iterSched, tickList, tickTask,
      Task.shouldExecute, repTaskA3, jsOr0, Task.callbackStep, Task.onCallbackTick,
      Task.markForDestroy]
  · norm_num +decide [tickSeq, SchedState.tick, iterSched, tickList, tickTask,
      Task.shouldExecute, repTaskA3, jsOr0, Task.callbackStep, Task.onCallbackTick,
      Task.markForDestroy]

/-- Witness for C3 at the recurring task (interval 100, iterations 3) fired
at t = 100: the counter becomes 1 and `lastUpdate` becomes 100. -/
theorem C3_firing_protocol_witness :
    (100 : ℚ) ≠ 0
    ∧ (repTaskA3.onCallbackTick 100 100).iteration = some (jsOr0 repTaskA3.iteration + 1)
    ∧ (repTaskA3.onCallbackTick 100 100).lastUpdate = some 100 :=
  ⟨by norm_num,
    (C3_firing_protocol repTaskA3 100 100 (by norm_num)).1,
    ((C3_firing_protocol repTaskA3 100 100 (by norm_num)).2.2.1
      (by rintro (h | ⟨h1, h2, h3⟩)
          · cases h
          · norm_num [repTaskA3, jsOr0] at h3)).2⟩

/-- Claim C4: an exception thrown by a user callback is caught inside the
firing wrapper and never reaches the tick pass; the throwing task ends the
wrapper step with `destroy = true`, is gone from the registry at the end of
that tick pass (hence never retried), and the sibling task due in the same
pass still has its callback invoked, completing normally. -/
theorem C4_callback_failure_isolation
    (s : SchedState) (na nb : String) (a b : Task) (now dateNow : ℚ)
    (hrun : s.running = true) (hlist : s.list = [(na, a), (nb, b)]) (hne : na ≠ nb)
    (hth : a.cbThrows = true) (hbok : b.cbThrows = false)
    (ha : a.shouldExecute now = true) (hb : b.shouldExecute now = true) :
    (a.callbackStep now dateNow).1.destroy = true
    ∧ (∀ p ∈ (s.tick now dateNow).1.list, p.1 ≠ na)
    ∧ (s.tick now dateNow).2 = [(na, false), (nb, true)] := by
  have hastep : a.callbackStep now dateNow =
      ((a.onCallbackTick now dateNow).markForDestroy, false) := by
    simp [Task.callbackStep, hth]
  have hbstep : b.callbackStep now dateNow = (b.onCallbackTick now dateNow, true) := by
    simp [Task.callbackStep, hbok]
  have hlist2 : tickList now dateNow [(na, a), (nb, b)] =
      ((if (b.onCallbackTick now dateNow).destroy then [] else
          [(nb, b.onCallbackTick now dateNow)]),
        [(na, false), (nb, true)]) := by
    simp [tickList, tickTask, ha, hb, hastep, hbstep, Task.markForDestroy]
    constructor <;> split <;> rfl
  have htick : s.tick now dateNow =
      ({ s with list := (if (b.onCallbackTick now dateNow).destroy then [] else
          [(nb, b.onCallbackTick now dateNow)]) },
        [(na, false), (nb, true)]) := by
    simp [SchedState.tick, hrun, hlist, hlist2]
  refine ⟨by simp [hastep, Task.markForDestroy], ?_, by rw [htick]⟩
  intro p hp
  rw [htick] at hp
  simp only at hp
  cases hd : (b.onCallbackTick now dateNow).destroy <;> rw [hd] at hp <;> simp at hp
  rw [hp]
  exact Ne.symm hne

/-- Witness for C4: the throwing task "A" and the healthy sibling "B", both
due at t = 50, on the started scheduler. -/
theorem C4_callback_failure_isolation_witness :
    (throwTaskA.callbackStep 50 50).1.destroy = true
    ∧ (∀ p ∈ (abSched.tick 50 50).1.list, p.1 ≠ "A")
    ∧ (abSched.tick 50 50).2 = [("A", false), ("B", true)] :=
  C4_callback_failure_isolation abSched "A" "B" throwTaskA okTaskB 50 50 rfl rfl
    (by simp) rfl rfl
    (by norm_num +decide [Task.shouldExecute, throwTaskA, jsOr0])
    (by norm_num +decide [Task.shouldExecute, okTaskB, jsOr0])

/-- Claim C6 counterexample: on a scheduler constructed with heartbeat 0,
`changeWait(1/2)` is numeric, lies in `[floor, 24h]` and differs from the
current value, yet it fails with the state unchanged — the `\x7bto:N\x7d`
regex only accepts bare digit strings, so non-integer candidates are
rejected. -/
theorem C6_counterexample :
    SchedState.construct (CProps.num 0) = Except.ok emptySched
    ∧ JVal.isNum (JVal.num (1 / 2)) = true
    ∧ emptySched.min ≤ 1 / 2
    ∧ (1 / 2 : ℚ) ≤ maxWait
    ∧ (1 / 2 : ℚ) ≠ emptySched.wait
    ∧ emptySched.changeWait (JVal.num (1 / 2)) = (emptySched, false) := by
  refine ⟨rfl, rfl, by norm_num [emptySched], by norm_num [maxWait],
    by norm_num [emptySched], ?_⟩
  norm_num [SchedState.changeWait, SchedState.getValidWait, SchedState.waitSet,
    regexWaitMatch, emptySched]

/-- Claim C6 as amended: `changeWait(v)` succeeds — returns true and the
heartbeat becomes v — exactly when v is numeric, differs from the current
heartbeat, is a non-negative integer below 10^10 (the regex gate on the
string-encoded setter), and lies in `[floor, 24h]`; in every other case it
returns false with the state unchanged, and no exception escapes the
public call. -/
theorem C6_changeWait_characterization (s : SchedState) (v : JVal) :
    ((s.changeWait v).2 = true ↔
      ∃ q : ℚ, v = JVal.num q ∧ q ≠ s.wait ∧ q.den = 1 ∧ 0 ≤ q ∧ q < 10 ^ 10
        ∧ s.min ≤ q ∧ q ≤ maxWait)
    ∧ (∀ q : ℚ, v = JVal.num q → (s.changeWait v).2 = true →
        s.changeWait v = ({ s with wait := q }, true))
    ∧ ((s.changeWait v).2 = false → (s.changeWait v).1 = s) := by
  rcases v with _ | sv | q | th
  · exact ⟨by simp [SchedState.changeWait, SchedState.getValidWait],
      fun q hq _ => (nomatch hq), fun _ => rfl⟩
  · exact ⟨by simp [SchedState.changeWait, SchedState.getValidWait],
      fun q hq _ => (nomatch hq), fun _ => rfl⟩
  · by_cases hq : q = s.wait
    · have hCW : s.changeWait (JVal.num q) = (s, false) := by
        simp [SchedState.changeWait, SchedState.getValidWait, hq]
      refine ⟨by rw [hCW]; simp [hq], fun r hr2 htrue => ?_, fun _ => by rw [hCW]⟩
      rw [hCW] at htrue
      cases htrue
    · by_cases hr : q.den = 1 ∧ 0 ≤ q ∧ q < 10 ^ 10
      · by_cases hR : s.min ≤ q ∧ q ≤ maxWait
        · have hCW : s.changeWait (JVal.num q) = ({ s with wait := q }, true) := by
            simp [SchedState.changeWait, SchedState.getValidWait, SchedState.waitSet,
              regexWaitMatch, hq, hr, hR]
          refine ⟨?_, fun r hr2 _ => ?_, fun hfalse => ?_⟩
          · rw [hCW]
            exact iff_of_true rfl ⟨q, rfl, hq, hr.1, hr.2.1, hr.2.2, hR.1, hR.2⟩
          · cases hr2
            exact hCW
          · rw [hCW] at hfalse
            cases hfalse
        · have hCW : s.changeWait (JVal.num q) = (s, false) := by
            simp [SchedState.changeWait, SchedState.getValidWait, SchedState.waitSet,
              regexWaitMatch, hq, hr, hR]
          refine ⟨?_, fun r hr2 htrue => ?_, fun _ => by rw [hCW]⟩
          · rw [hCW]
            refine iff_of_false (by simp) ?_
            rintro ⟨r, hinj, hrne, hden, hpos, hlt, hmin, hmax⟩
            cases hinj
            exact hR ⟨hmin, hmax⟩
          · rw [hCW] at htrue
            cases htrue
      · have hCW : s.changeWait (JVal.num q) = (s, false) := by
          simp [SchedState.changeWait, SchedState.getValidWait, SchedState.waitSet,
            regexWaitMatch, hq, hr]
        refine ⟨?_, fun r hr2 htrue => ?_, fun _ => by rw [hCW]⟩
        · rw [hCW]
          refine iff_of_false (by simp) ?_
          rintro ⟨r, hinj, hrne, hden, hpos, hlt, hmin, hmax⟩
          cases hinj
          exact hr ⟨hden, hpos, hlt⟩
        · rw [hCW] at htrue
          cases htrue
  · exact ⟨by simp [SchedState.changeWait, SchedState.getValidWait],
      fun q hq _ => (nomatch hq), fun _ => rfl⟩

/-- Witness for C6: the below-floor rejection `changeWait(100)` leaves the
heartbeat-500 scheduler unchanged, and `changeWait(1000)` applies 1000. -/
theorem C6_changeWait_characterization_witness :
    (sched500.changeWait (JVal.num 100)).1 = sched500
    ∧ sched500.changeWait (JVal.num 1000) = ({ sched500 with wait := 1000 }, true) :=
  ⟨(C6_changeWait_characterization sched500 (JVal.num 100)).2.2 rfl,
    (C6_changeWait_characterization sched500 (JVal.num 1000)).2.1 1000 rfl rfl⟩

end TimeSched
